import Mathlib

/-!
Verification of the signing-status resolution pipeline of the ios-beta-api
repository (source files `api.py`, `scraper.py`, and their predecessors).

The Python code is shallowly embedded: each relevant function is translated
into an executable Lean definition.  Network effects are passed in explicitly
as environment functions; a Python value of `None`/an absent dict key becomes
`Option`, and an exception that a function can raise becomes `Except`.
Byte strings (`bytes`) become `List Nat`.
-/

/-! ## String machinery

Python's `in` operator on strings is substring containment, and SQLite's
`LIKE` with a `'%pat%'` pattern (as used throughout `api.py`) is substring
containment after ASCII case folding.  `Char.toLower` lowers exactly the
ASCII range, which coincides with SQLite's default `LIKE` folding.
-/

/-- Does `h` start with `n`?  (Models a prefix test on character lists.) -/
def leadsWith : List Char → List Char → Bool
  | [], _ => true
  | _ :: _, [] => false
  | a :: as, b :: bs => a == b && leadsWith as bs

/-- Does `n` occur as a contiguous substring of `h`?  Models Python's
`n in h` on strings. -/
def containsSub (n : List Char) : List Char → Bool
  | [] => n.isEmpty
  | b :: bs => leadsWith n (b :: bs) || containsSub n bs

/-- Lowercase the ASCII letters of a string.  Models Python's `str.lower()`
and `str.casefold()` on the ASCII identifiers and board configs this
repository handles. -/
def caseFold (s : String) : String := ⟨s.data.map Char.toLower⟩

/-- Models the SQL condition `column LIKE '%pat%'` of `api.py` for a pattern
without wildcard metacharacters: substring containment that is
case-insensitive on ASCII characters. -/
def likeContains (column pat : String) : Bool :=
  containsSub (pat.toList.map Char.toLower) (column.toList.map Char.toLower)

/-- Lexicographic (code-point) comparison of character lists; this is how
Python compares the build-id strings in `sorted(key=..., reverse=True)`. -/
def lexLe : List Char → List Char → Bool
  | [], _ => true
  | _ :: _, [] => false
  | a :: as, b :: bs => if a = b then lexLe as bs else decide (a < b)

/-- Lexicographic string comparison (Python's `<=` on `str`). -/
def strLe (a b : String) : Bool := lexLe a.toList b.toList

/-- Bytes of the byte string `b'0'` (the single ASCII digit zero,
value 0x30) used as nonce placeholder in the TSS request. -/
def zeroNonce : List Nat := [48]

/-- Characters of the literal token `'MESSAGE=SUCCESS'` that `api.py` and
`scraper.py` search for in the signing authority's response body. -/
def tokenChars : List Char := "MESSAGE=SUCCESS".toList

/-! ## Data model -/

/-- One entry of a build manifest's `BuildIdentities` list, with the fields
the code reads: `Info.DeviceClass`, `Info.RestoreBehavior` (may be absent),
`Info.BuildNumber`, `ApChipID`, `ApBoardID` (already converted from their
hex-string form), and `UniqueBuildID`. -/
structure BuildIdentity where
  deviceClass : String
  restoreBehavior : Option String
  buildNumber : String
  apChipID : Nat
  apBoardID : Nat
  uniqueBuildID : List Nat
deriving DecidableEq

/-- One `sources` entry of an AppleDB firmware record (`api.py`). -/
structure Source where
  type : String
  deviceMap : List String
  links : List String
  size : Nat
deriving DecidableEq

/-- One entry of the AppleDB `ios` catalog list, with the fields `api.py`
reads. `hasSources` models the `'sources' in firm.keys()` test. -/
structure Candidate where
  osStr : String
  beta : Bool
  hasSources : Bool
  version : String
  build : String
  sources : List Source
deriving DecidableEq

/-- One entry of the AppleDB `device` catalog list (`api.py`).
`hasArch`/`archArm` model `'arch' in device.keys()` and
`'arm' in device['arch']`; `dtype` is `device['type']`. -/
structure Device where
  key : String
  board : List String
  hasArch : Bool
  archArm : Bool
  dtype : String
deriving DecidableEq

/-- A row of the `firmwares` table of `api.py` (`devices` is the
comma-joined device map). -/
structure FirmRow where
  version : String
  buildid : String
  url : String
  size : Nat
  devices : String
deriving DecidableEq

/-- A row of the `buildmanifest` table of `api.py`. -/
structure BMRow where
  boardconfig : String
  buildid : String
  chip_id : Nat
  board_id : Nat
  unique_buildid : List Nat
deriving DecidableEq

/-- The SQLite database `betas.db` of `api.py`: tables `firmwares`,
`devices` (identifier, boardconfig) and `buildmanifest`. -/
structure DB where
  firmwares : List FirmRow
  devices : List (String × String)
  buildmanifest : List BMRow
deriving DecidableEq

/-- A firmware dictionary as served by both lookup endpoints
(`version`, `buildid`, `url`, `filesize`, and the `signed` flag once a
signing check has run). -/
structure Firmware where
  version : String
  buildid : String
  url : String
  filesize : Nat
  signed : Option Bool
deriving DecidableEq

/-- Set the `signed` field of a firmware dictionary. -/
def setSigned (f : Firmware) (b : Bool) : Firmware := { f with signed := some b }

/-! ## Signing request (`api.py` `_is_firmware_signed`, lines 250-265;
`scraper.py` `check_firmware`, lines 220-229) -/

/-- The TSS request dictionary.  The first seven fields are the fixed
`TATSU_REQUEST` template with the identity's chip id, board id and unique
build id filled in; the last four are the ticket-type fields that are only
present for one of the two chip-id ranges (absence = `none`). -/
structure TssRequest where
  apChipID : Nat
  apBoardID : Nat
  apECID : Nat
  apSecurityDomain : Nat
  apNonce : List Nat
  apProductionMode : Bool
  uniqueBuildID : List Nat
  apTicket : Option Bool
  apImg4Ticket : Option Bool
  apSecurityMode : Option Bool
  sepNonce : Option (List Nat)
deriving DecidableEq

/-- Build the TSS request exactly as both `api.py` and `scraper.py` do:
chip ids in `[0x8900, 0x8960)` get the legacy `@APTicket` field; all other
chip ids get `@ApImg4Ticket`, `ApSecurityMode` and `SepNonce = b'0'`. -/
def buildTssRequest (chipId boardId : Nat) (ubid : List Nat) : TssRequest :=
  if 0x8900 ≤ chipId ∧ chipId < 0x8960 then
    ⟨chipId, boardId, 1, 1, zeroNonce, true, ubid, some true, none, none, none⟩
  else
    ⟨chipId, boardId, 1, 1, zeroNonce, true, ubid, none, some true, some true, some zeroNonce⟩

/-! ## Manifest resolver (`api.py` `get_manifest`, lines 205-216, and the
retry loop of `_scrape_firmware`, lines 88-97)

`get_manifest` first issues a GET on the sibling `BuildManifest.plist` path;
if that GET itself raises, the exception escapes `get_manifest` (there is no
`try` around it).  On a non-200 status it falls back to
`_sync_get_manifest`, which opens the URL as a remote zip and catches every
exception, returning `None`.  An `Except.error ()` therefore models a raised
transport exception and `Option` models the `bytes | None` result. -/

/-- Model of `get_manifest`: `sibling` is the outcome of the GET on the
sibling manifest path (`Except.error` = the GET raised; otherwise status and
body), `archive` the result of the archive-read fallback. -/
def getManifest (sibling : Except Unit (Nat × List Nat)) (archive : Option (List Nat)) :
    Except Unit (Option (List Nat)) :=
  match sibling with
  | .error e => .error e
  | .ok (status, body) => if status == 200 then .ok (some body) else .ok archive

/-- Model of the retry loop state: the second argument is the current
binding of the Python local variable `manifest` (`none` = the variable was
never assigned, `some v` = it holds `v`).  Each attempt either raises
(`Except.error`, caught by the bare `except: continue`) or binds the
variable; a non-`None` value breaks out of the loop. -/
def retryLoop : List (Except Unit (Option (List Nat))) → Option (Option (List Nat)) →
    Option (Option (List Nat))
  | [], m => m
  | a :: rest, m =>
    match a with
    | .error _ => retryLoop rest m
    | .ok (some b) => some (some b)
    | .ok none => retryLoop rest (some none)

/-- Model of `for _ in range(5): try: manifest = await get_manifest(...)`
followed by `if manifest is None: continue` in `_scrape_firmware`
(`api.py` lines 88-97).  If no attempt ever assigned the local `manifest`,
referencing it raises `UnboundLocalError`, modelled as `Except.error ()`;
otherwise the loop's final value decides between skipping the link
(`.ok none`) and parsing the manifest (`.ok (some m)`). -/
def fetchManifestWithRetry (attempts : List (Except Unit (Option (List Nat)))) :
    Except Unit (Option (List Nat)) :=
  match retryLoop (attempts.take 5) none with
  | none => .error ()
  | some m => .ok m

/-! ## AppleDB scraping (`api.py` `AppleDB`, lines 36-194)

The network is supplied as an environment: `headStatus` gives the status of
the HEAD request on a link, and `manifestFor` gives the (already
plist-parsed) `BuildIdentities` list produced by the retry loop for a link
when that loop terminates normally — `none` when the loop ends with
`manifest is None` and the link is skipped.  (The exceptional path of the
retry loop is modelled separately by `fetchManifestWithRetry`.) -/

structure ScrapeEnv where
  headStatus : String → Nat
  manifestFor : String → Option (List BuildIdentity)

/-- Models `', '.join(source['deviceMap'])`. -/
def joinDevices (l : List String) : String := String.intercalate ", " l

/-- The identity filter of `_scrape_firmware` (`api.py` lines 100-105):
identities without a `RestoreBehavior` key are skipped, and — as written in
the source — identities whose `RestoreBehavior` equals `'Erase'` are also
skipped (`if identity['Info']['RestoreBehavior'] == 'Erase': continue`), so
only the non-Erase identities survive to be recorded. -/
def apiKeepIdentity (i : BuildIdentity) : Bool :=
  match i.restoreBehavior with
  | none => false
  | some rb => rb != "Erase"

/-- The `buildmanifest` insertion loop of `_scrape_firmware`
(`api.py` lines 100-127): for every surviving identity, insert a row keyed
by (DeviceClass, BuildNumber) unless one already exists. -/
def insertBMRows (db : DB) (ids : List BuildIdentity) : DB :=
  ids.foldl
    (fun db i =>
      if apiKeepIdentity i then
        if db.buildmanifest.any
            (fun r => r.boardconfig == i.deviceClass && r.buildid == i.buildNumber) then db
        else
          { db with buildmanifest :=
              db.buildmanifest ++ [⟨i.deviceClass, i.buildNumber, i.apChipID, i.apBoardID,
                i.uniqueBuildID⟩] }
      else db)
    db

/-- Processing of one link of one source in `_scrape_firmware`
(`api.py` lines 70-127): HEAD the link; on status 200 insert a `firmwares`
row (one row per working link — the loop has no `break`), then fetch and
process the build manifest for the `buildmanifest` table. -/
def processLink (env : ScrapeEnv) (cand : Candidate) (src : Source) (db : DB)
    (link : String) : DB :=
  if env.headStatus link != 200 then db
  else
    let db1 : DB :=
      { db with firmwares :=
          db.firmwares ++ [⟨cand.version, cand.build, link, src.size,
            joinDevices src.deviceMap⟩] }
    match env.manifestFor link with
    | none => db1
    | some ids => insertBMRows db1 ids

/-- Processing of one source in `_scrape_firmware` (`api.py` lines 59-68):
only `ipsw` sources are handled, and a source whose (buildid, devices) pair
already has a `firmwares` row is skipped before the link loop. -/
def processSource (env : ScrapeEnv) (cand : Candidate) (db : DB) (src : Source) : DB :=
  if src.type != "ipsw" then db
  else if db.firmwares.any
      (fun r => r.buildid == cand.build && r.devices == joinDevices src.deviceMap) then db
  else src.links.foldl (processLink env cand src) db

/-- Model of `AppleDB._scrape_firmware` (`api.py` lines 58-130). -/
def scrapeFirmware (env : ScrapeEnv) (db : DB) (cand : Candidate) : DB :=
  cand.sources.foldl (processSource env cand) db

/-- Model of `AppleDB._scrape_device` (`api.py` lines 44-56): insert the
(identifier, first board config) pair unless it is already present. -/
def scrapeDevice (db : DB) (d : Device) : DB :=
  if db.devices.any (fun r => r.1 == d.key && r.2 == d.board.headD "") then db
  else { db with devices := db.devices ++ [(d.key, d.board.headD "")] }

/-- The firmware eligibility filter of `scrape_data`
(`api.py` lines 144-157). -/
def eligibleFirm (f : Candidate) : Bool :=
  (f.osStr == "iPadOS" || f.osStr == "iOS" || f.osStr == "Apple TV Software" ||
    f.osStr == "tvOS") && f.hasSources && f.beta

/-- The device eligibility filter of `scrape_data`
(`api.py` lines 159-180). -/
def eligibleDevice (d : Device) : Bool :=
  d.hasArch && d.archArm &&
    (d.dtype == "iPhone" || d.dtype == "iPad" || d.dtype == "iPad mini" ||
      d.dtype == "iPad Air" || d.dtype == "iPad Pro" || d.dtype == "Apple TV") &&
    d.board.length != 0

/-- Descending stable sort of the candidate list by build string
(`firmwares.sort(key=lambda x: x['build'], reverse=True)`). -/
def sortCandidatesDesc (l : List Candidate) : List Candidate :=
  List.insertionSort (fun a b => strLe b.build a.build = true) l

/-- The catalog JSON fetched from AppleDB (`data['ios']` and
`data['device']`). -/
structure Catalog where
  ios : List Candidate
  device : List Device
deriving DecidableEq

/-- The mutable state of an `AppleDB` instance: the database plus the
`self._data` memo of the previously processed catalog. -/
structure AppleDBState where
  db : DB
  memo : Catalog

/-- Model of `AppleDB.scrape_data` (`api.py` lines 136-194): filter the
catalog against the memo and the eligibility conditions, process devices and
(build-descending) firmwares, then remember the whole catalog in
`self._data`.  The concurrent `TaskGroup` is modelled by a sequential fold;
the store writes of distinct pairs are independent. -/
def scrapeData (env : ScrapeEnv) (st : AppleDBState) (catalog : Catalog) : AppleDBState :=
  let firms := catalog.ios.filter
    (fun f => decide (f ∉ st.memo.ios) && eligibleFirm f)
  let devs := catalog.device.filter
    (fun d => decide (d ∉ st.memo.device) && eligibleDevice d)
  let db1 := devs.foldl scrapeDevice st.db
  let db2 := (sortCandidatesDesc firms).foldl (scrapeFirmware env) db1
  ⟨db2, catalog⟩

/-! ## Lookup path of `api.py` (lines 219-285 and 348-373) -/

/-- Fail-fast collection of per-element results, modelling
`asyncio.gather`/`TaskGroup` over coroutines that may raise: the first
raised exception aborts the whole collection. -/
def mapExcept (f : α → Except ε β) : List α → Except ε (List β)
  | [] => .ok []
  | a :: as =>
    match f a with
    | .error e => .error e
    | .ok b =>
      match mapExcept f as with
      | .error e => .error e
      | .ok bs => .ok (b :: bs)

/-- The `SELECT ... FROM firmwares WHERE devices LIKE '%identifier%'` of
`get_beta_firmwares` (`api.py` lines 351-354). -/
def matchedFirmRows (db : DB) (identifier : String) : List FirmRow :=
  db.firmwares.filter (fun r => likeContains r.devices identifier)

/-- Turn a `firmwares` row into the response dictionary built at
`api.py` lines 356-364. -/
def firmOfRow (r : FirmRow) : Firmware := ⟨r.version, r.buildid, r.url, r.size, none⟩

/-- Model of `_is_firmware_signed` (`api.py` lines 219-275).  The two
`LIKE`-based lookups return the first matching row (`fetchone`); a miss
returns `None` (`.ok none`) and the firmware is dropped from the response
(the second miss additionally deletes the `firmwares` row for later
re-scraping, a store effect not needed by the claims below).  A transport
failure of the TSS POST raises, modelled `.error ()`. -/
def isFirmwareSigned (db : DB) (tssEnv : TssRequest → Option String)
    (identifier : String) (firm : Firmware) : Except Unit (Option Firmware) :=
  match db.devices.find? (fun r => likeContains r.1 identifier) with
  | none => .ok none
  | some dev =>
    match db.buildmanifest.find?
        (fun r => likeContains r.boardconfig dev.2 && r.buildid == firm.buildid) with
    | none => .ok none
    | some bm =>
      match tssEnv (buildTssRequest bm.chip_id bm.board_id bm.unique_buildid) with
      | none => .error ()
      | some body => .ok (some (setSigned firm (containsSub tokenChars body.toList)))

/-- Descending stable sort by buildid, modelling
`sorted(firmwares, key=lambda x: x['buildid'], reverse=True)`. -/
def firmDescRel (a b : Firmware) : Prop := strLe b.buildid a.buildid = true

instance : DecidableRel firmDescRel :=
  fun a b => instDecidableEqBool (strLe b.buildid a.buildid) true

def sortFirmsDesc (l : List Firmware) : List Firmware := List.insertionSort firmDescRel l

/-- Model of the `GET /betas/{identifier}` handler of `api.py`
(lines 348-373): select the rows whose `devices` column `LIKE`-matches the
identifier, run a signing check per row, drop the `None` results, and return
the rest sorted by buildid descending.  The handler contains no not-found
branch; the only failure is an exception escaping the task group. -/
def getBetaFirmwares (db : DB) (tssEnv : TssRequest → Option String)
    (identifier : String) : Except Unit (List Firmware) :=
  match mapExcept (isFirmwareSigned db tssEnv identifier)
      ((matchedFirmRows db identifier).map firmOfRow) with
  | .error e => .error e
  | .ok results => .ok (sortFirmsDesc (results.filterMap (fun x => x)))

/-- The `api.py` endpoint as an HTTP outcome: a raised exception becomes a
500-class error response; every normal return is a 200 payload.  Notice that
no path produces a 404. -/
def apiGetBetaFirmwares (db : DB) (tssEnv : TssRequest → Option String)
    (identifier : String) : Except Nat (List Firmware) :=
  match getBetaFirmwares db tssEnv identifier with
  | .ok l => .ok l
  | .error _ => .error 500

/-! ## `scraper.py`: identity extraction, signing check and result store -/

/-- Model of the identity selection inside `WikiScraper.check_firmware`
(`scraper.py` lines 234-248): walk the `BuildIdentities` list, skip entries
without a `RestoreBehavior` key, and break at the first entry whose
`DeviceClass` equals the device's board config case-insensitively and whose
`RestoreBehavior` equals `'Erase'`; if the loop finishes without a match the
firmware is dropped. -/
def findIdentity (ids : List BuildIdentity) (boardconfig : String) : Option BuildIdentity :=
  ids.find? (fun i =>
    match i.restoreBehavior with
    | none => false
    | some rb => caseFold i.deviceClass == caseFold boardconfig && rb == "Erase")

/-- Model of `WikiScraper.check_firmware` (`scraper.py` lines 219-266) for
one firmware.  `manifest` is the fetched-and-parsed manifest (`none` covers
both `_get_manifest` returning `None` and a parse failure — the `try` block
catches both and removes the firmware).  The TSS POST is outside the `try`;
a transport failure there raises (`.error ()`), which aborts the device's
`asyncio.gather`.  The result distinguishes the firmware being removed
(`.ok none`) from its `signed` flag being set (`.ok (some f)`). -/
def checkFirmware (boardconfig : String) (firm : Firmware)
    (manifest : Option (List BuildIdentity)) (resp : Option String) :
    Except Unit (Option Firmware) :=
  match manifest with
  | none => .ok none
  | some ids =>
    match findIdentity ids boardconfig with
    | none => .ok none
    | some _ =>
      match resp with
      | none => .error ()
      | some body => .ok (some (setSigned firm (containsSub tokenChars body.toList)))

/-- The `betas` table of `scraper.py`: one row per (lowercased) device
identifier holding that device's JSON list of firmware dictionaries. -/
abbrev ScraperStore := List (String × List Firmware)

/-- Model of `WikiScraper.output_device_data` (`scraper.py` lines 286-299):
serialize the device's list sorted by buildid descending, then `UPDATE` the
existing row for the lowercased identifier or `INSERT` a fresh one. -/
def outputDeviceData (store : ScraperStore) (identifier : String)
    (firms : List Firmware) : ScraperStore :=
  let idl := caseFold identifier
  let data := sortFirmsDesc firms
  if store.any (fun r => r.1 == idl) then
    store.map (fun r => if r.1 == idl then (idl, data) else r)
  else store ++ [(idl, data)]

/-- Model of `WikiScraper.check_device_signed_firmwares` followed by
`output_device_data` (`scraper.py` lines 268-299): gather the per-firmware
checks (fail-fast) over the device's list, keep the surviving firmwares, and
upsert the device's row.  If any check raises, the store is left untouched
(`.error ()`). -/
def runDeviceChecks (store : ScraperStore) (identifier boardconfig : String)
    (firms : List Firmware) (manifestEnv : Firmware → Option (List BuildIdentity))
    (respEnv : Firmware → Option String) : Except Unit ScraperStore :=
  match mapExcept (fun f => checkFirmware boardconfig f (manifestEnv f) (respEnv f)) firms with
  | .error e => .error e
  | .ok results => .ok (outputDeviceData store identifier (results.filterMap (fun x => x)))

/-- Model of the `GET /betas/{identifier}` handler of `scraper.py`
(lines 327-339): fetch the row for the lowercased identifier; a missing row
makes `firmwares[0]` raise, which is answered with HTTP 404; otherwise the
stored JSON list is returned. -/
def getFirmwares (store : ScraperStore) (identifier : String) :
    Except Nat (List Firmware) :=
  match store.find? (fun r => r.1 == caseFold identifier) with
  | some r => .ok r.2
  | none => .error 404

/-- Modelled from the spec: the three-way classification of a
signing-authority response (`Signed`/`Unsigned`/`Unknown`).  The code never
reifies this type; it is used to state the classification claims. -/
inductive SigningStatus where
  | signed
  | unsigned
  | unknown
deriving DecidableEq

/-- Modelled from the spec: a present response body containing
`MESSAGE=SUCCESS` is `Signed`, a present body without it is `Unsigned`, and
a transport failure (`none`) is `Unknown`. -/
def classifyResponse : Option String → SigningStatus
  | some body => if containsSub tokenChars body.toList then .signed else .unsigned
  | none => .unknown

/-! ## Concurrency limiter (`api.py` line 33, `scraper.py` lines 44-46)

Both programs guard their outbound network calls with a counting semaphore
of capacity 100, always through `async with semaphore`, whose semantics is:
acquire one unit (waiting while none is free), run the body, release the
unit when the body finishes — normally or by exception.  That construct is
embedded as a labelled transition system: each lightweight task performs a
number of guarded network calls; `acquire` starts a call when a unit is
free, and `release` ends it with either outcome (`ok` records success vs.
raised exception; both release). -/

/-- One task of the refresh cycle: how many guarded network calls it still
has to make, and whether it currently holds a unit for an in-flight call. -/
structure LimTask where
  remaining : Nat
  inCall : Bool
deriving DecidableEq

/-- Global limiter state: free units of the semaphore plus all tasks. -/
structure LimState where
  free : Nat
  tasks : List LimTask
deriving DecidableEq

/-- Number of simultaneously in-flight network calls. -/
def countInCall (ts : List LimTask) : Nat := ts.countP (fun t => t.inCall)

/-- Interleaving semantics of `async with semaphore: <network call>`:
a task with pending calls may acquire a free unit and issue a call; an
in-flight call may finish — successfully or by raising (`ok`) — and in
either case the unit is released. -/
inductive LimStep : LimState → LimState → Prop where
  | acquire (free : Nat) (pre post : List LimTask) (n : Nat)
      (hfree : 0 < free) (hpend : 0 < n) :
      LimStep ⟨free, pre ++ ⟨n, false⟩ :: post⟩ ⟨free - 1, pre ++ ⟨n, true⟩ :: post⟩
  | release (free : Nat) (pre post : List LimTask) (n : Nat) (ok : Bool) :
      LimStep ⟨free, pre ++ ⟨n, true⟩ :: post⟩ ⟨free + 1, pre ++ ⟨n - 1, false⟩ :: post⟩

/-- Initial state: the semaphore's 100 units are free and no task is in a
call; `calls` lists how many guarded network calls each scheduled task will
make (arbitrarily many tasks — the stress scenario). -/
def initLimState (calls : List Nat) : LimState :=
  ⟨100, calls.map (fun n => ⟨n, false⟩)⟩

/-! ## Concrete inputs used by the claim theorems -/

/-- A build identity with restore behavior `Erase` for board `N104AP`. -/
def idErase : BuildIdentity := ⟨"N104AP", some "Erase", "17A5492t", 0x8030, 4, [1]⟩

/-- The matching `Update` identity of the same manifest. -/
def idUpdate : BuildIdentity := ⟨"N104AP", some "Update", "17A5492t", 0x8030, 4, [2]⟩

/-- An AppleDB source with two working mirror links for the same build. -/
def twoLinkSource : Source :=
  ⟨"ipsw", ["iPhone14,5"], ["https://a/x.ipsw", "https://b/x.ipsw"], 500⟩

/-- A beta iOS candidate carrying `twoLinkSource`. -/
def twoLinkCand : Candidate := ⟨"iOS", true, true, "16.0", "20A5283p", [twoLinkSource]⟩

/-- An environment in which every HEAD succeeds and every manifest fetch
ends with the loop value `None` (both strategies failed cleanly). -/
def allOkEnv : ScrapeEnv := ⟨fun _ => 200, fun _ => none⟩

/-- The empty database. -/
def emptyDB : DB := ⟨[], [], []⟩

/-- The empty catalog memo (`self._data = {'ios': [], 'device': []}`). -/
def emptyCatalog : Catalog := ⟨[], []⟩

/-- Firmware rows for one device under three stored buildids, in the
insertion order `19A5281j`, `20A5283p`, `19A5339a` used by the spec's
ordering example. -/
def exRows : List FirmRow :=
  [⟨"15.0", "19A5281j", "https://e/1.ipsw", 11, "iPhone14,5"⟩,
   ⟨"16.0", "20A5283p", "https://e/2.ipsw", 12, "iPhone14,5"⟩,
   ⟨"15.1", "19A5339a", "https://e/3.ipsw", 13, "iPhone14,5"⟩]

/-- A database holding `exRows` plus the device and manifest rows their
signing checks look up. -/
def exDB : DB :=
  ⟨exRows,
   [("iPhone14,5", "D17AP")],
   [⟨"D17AP", "19A5281j", 0x8110, 12, [1]⟩,
    ⟨"D17AP", "20A5283p", 0x8110, 12, [2]⟩,
    ⟨"D17AP", "19A5339a", 0x8110, 12, [3]⟩]⟩

/-- A TSS environment whose authority answers every request positively. -/
def exTssEnv : TssRequest → Option String := fun _ => some "STATUS=0 MESSAGE=SUCCESS"

/-- The response list `getBetaFirmwares exDB exTssEnv "iPhone14,5"`
produces: the three firmwares signed, sorted by buildid descending. -/
def exOut : List Firmware :=
  [⟨"16.0", "20A5283p", "https://e/2.ipsw", 12, some true⟩,
   ⟨"15.1", "19A5339a", "https://e/3.ipsw", 13, some true⟩,
   ⟨"15.0", "19A5281j", "https://e/1.ipsw", 11, some true⟩]

/-- A one-row scraper store used by the lookup-service witnesses. -/
def exStore : ScraperStore :=
  [("iphone14,5", [⟨"16.0", "20A5283p", "https://e/2.ipsw", 12, some true⟩])]

/-! ## Helper lemmas -/

/-- Correctness of the prefix test: `leadsWith n h` holds exactly when `h`
extends `n`. -/
theorem leadsWith_iff : ∀ (n h : List Char), leadsWith n h = true ↔ ∃ t, h = n ++ t := by
  intro n
  induction n with
  | nil => intro h; simp [leadsWith]
  | cons a as ih =>
    intro h
    cases h with
    | nil => simp [leadsWith]
    | cons b bs =>
      simp only [leadsWith, Bool.and_eq_true, beq_iff_eq, ih, List.cons_append]
      constructor
      · rintro ⟨rfl, t, rfl⟩
        exact ⟨t, rfl⟩
      · rintro ⟨t, ht⟩
        injection ht with h1 h2
        exact ⟨h1.symm, t, h2⟩

/-- Correctness of the substring test: `containsSub n h` holds exactly when
`n` occurs contiguously inside `h`. -/
theorem containsSub_iff (n : List Char) :
    ∀ h : List Char, containsSub n h = true ↔ ∃ pre post, h = pre ++ n ++ post := by
  intro h
  induction h with
  | nil =>
    simp only [containsSub, List.isEmpty_iff]
    constructor
    · rintro rfl
      exact ⟨[], [], rfl⟩
    · rintro ⟨p, q, hpq⟩
      rcases List.append_eq_nil.mp hpq.symm with ⟨hpn, hq⟩
      exact (List.append_eq_nil.mp hpn).2
  | cons b bs ih =>
    simp only [containsSub, Bool.or_eq_true, leadsWith_iff, ih]
    constructor
    · rintro (⟨t, ht⟩ | ⟨p, q, hpq⟩)
      · exact ⟨[], t, by simpa using ht⟩
      · exact ⟨b :: p, q, by simp [hpq]⟩
    · rintro ⟨p, q, hpq⟩
      cases p with
      | nil => left; exact ⟨q, by simpa using hpq⟩
      | cons x xs =>
        right
        injection hpq with h1 h2
        exact ⟨xs, q, h2⟩

/-- Totality of the lexicographic comparison. -/
theorem lexLe_total : ∀ (x y : List Char), lexLe x y = true ∨ lexLe y x = true := by
  intro x
  induction x with
  | nil => intro y; left; rfl
  | cons a as ih =>
    intro y
    cases y with
    | nil => right; rfl
    | cons b bs =>
      by_cases hab : a = b
      · subst hab
        simp only [lexLe, if_pos rfl]
        exact ih bs
      · have hba : ¬ b = a := fun hr => hab hr.symm
        simp only [lexLe, if_neg hab, if_neg hba, decide_eq_true_eq]
        exact lt_or_gt_of_ne hab

/-- Transitivity of the lexicographic comparison. -/
theorem lexLe_trans : ∀ (x y z : List Char),
    lexLe x y = true → lexLe y z = true → lexLe x z = true := by
  intro x
  induction x with
  | nil => intro y z _ _; rfl
  | cons a as ih =>
    intro y z hxy hyz
    cases y with
    | nil => cases hxy
    | cons b bs =>
      cases z with
      | nil => cases hyz
      | cons c cs =>
        by_cases hab : a = b
        · subst hab
          by_cases hac : a = c
          · subst hac
            simp only [lexLe, if_pos rfl] at hxy hyz ⊢
            exact ih bs cs hxy hyz
          · simp only [lexLe, if_pos rfl] at hxy
            simp only [lexLe, if_neg hac] at hyz ⊢
            exact hyz
        · by_cases hbc : b = c
          · subst hbc
            simp only [lexLe, if_neg hab] at hxy ⊢
            exact hxy
          · simp only [lexLe, if_neg hab, decide_eq_true_eq] at hxy
            simp only [lexLe, if_neg hbc, decide_eq_true_eq] at hyz
            have hac : a < c := lt_trans hxy hyz
            simp only [lexLe, if_neg (ne_of_lt hac), decide_eq_true_eq]
            exact hac

/-- A list filtered by "not already a member of that very list" is empty;
this is the shape of the memo filter in `scrapeData` on a repeated catalog. -/
theorem filter_not_mem_self {α : Type} [DecidableEq α] (l : List α) (p : α → Bool) :
    l.filter (fun x => !decide (x ∈ l) && p x) = [] := by
  rw [List.filter_eq_nil_iff]
  intro a ha
  simp [ha]

/-- Initially no task holds a limiter unit. -/
theorem countInCall_init (calls : List Nat) : countInCall (initLimState calls).tasks = 0 := by
  simp only [initLimState, countInCall]
  rw [List.countP_eq_zero]
  intro a ha
  rw [List.mem_map] at ha
  obtain ⟨n, _, rfl⟩ := ha
  simp

/-- One limiter transition preserves the accounting identity
`free units + in-flight calls = capacity`. -/
theorem limStep_preserves {s t : LimState} (hst : LimStep s t)
    (hinv : s.free + countInCall s.tasks = 100) :
    t.free + countInCall t.tasks = 100 := by
  cases hst with
  | acquire free pre post n hfree hpend =>
    simp only [countInCall, List.countP_append, List.countP_cons] at hinv ⊢
    simp only [Bool.false_eq_true] at hinv ⊢
    simp at hinv ⊢
    omega
  | release free pre post n ok =>
    simp only [countInCall, List.countP_append, List.countP_cons] at hinv ⊢
    simp at hinv ⊢
    omega

/-! ## Claim theorems -/

/-- C1.  The claim says the Identity Extractor selects the first build
identity whose DeviceClass matches the target board config
case-insensitively and whose RestoreBehavior is `Erase`.  `scraper.py`'s
`check_firmware` does exactly that (first conjunct), but `api.py`'s
`_scrape_firmware` does the opposite: its filter at lines 100-105 *skips*
every identity with `RestoreBehavior == 'Erase'` and records only the
non-Erase identities, so on a manifest containing both an Erase and an
Update identity for board `N104AP` the recorded `buildmanifest` row carries
the Update identity's unique build id `[2]`, not the Erase identity's `[1]`
(second conjunct). -/
theorem c1_identity_extractor_divergence :
    findIdentity [idErase, idUpdate] "n104ap" = some idErase ∧
    (insertBMRows emptyDB [idErase, idUpdate]).buildmanifest =
      [⟨"N104AP", "17A5492t", 0x8030, 4, [2]⟩] := by
  exact ⟨rfl, rfl⟩

/-- C3.  The generated TSS request carries the legacy `@APTicket` field and
omits `@ApImg4Ticket`, `ApSecurityMode` and `SepNonce` exactly when the chip
id lies in `[0x8900, 0x8960)`, and the inverse field assignment holds
exactly when the chip id lies outside that range. -/
theorem c3_ticket_fields_by_chip_range (chipId boardId : Nat) (ubid : List Nat) :
    (((buildTssRequest chipId boardId ubid).apTicket = some true ∧
        (buildTssRequest chipId boardId ubid).apImg4Ticket = none ∧
        (buildTssRequest chipId boardId ubid).apSecurityMode = none ∧
        (buildTssRequest chipId boardId ubid).sepNonce = none) ↔
      (0x8900 ≤ chipId ∧ chipId < 0x8960)) ∧
    (((buildTssRequest chipId boardId ubid).apTicket = none ∧
        (buildTssRequest chipId boardId ubid).apImg4Ticket = some true ∧
        (buildTssRequest chipId boardId ubid).apSecurityMode = some true ∧
        (buildTssRequest chipId boardId ubid).sepNonce = some zeroNonce) ↔
      (chipId < 0x8900 ∨ 0x8960 ≤ chipId)) := by
  by_cases h : 0x8900 ≤ chipId ∧ chipId < 0x8960
  · constructor
    · simp [buildTssRequest, h]
    · simp [buildTssRequest, h]
  · constructor
    · simp [buildTssRequest, h]
    · simp [buildTssRequest, h]
      omega

/-- C4.  The claim says a candidate whose manifest fetch fails both
strategies over all 5 retry attempts is skipped without an unhandled fault.
That holds when each attempt terminates normally with `None` (second
conjunct), but when every attempt raises a transport exception — the
sibling GET of `get_manifest` has no surrounding `try` — the retry loop of
`_scrape_firmware` never assigns the local variable `manifest`, and the
subsequent `if manifest is None` raises `UnboundLocalError`, an unhandled
fault that aborts the task group and the refresh cycle (first conjunct). -/
theorem c4_manifest_retry_unbound_local :
    fetchManifestWithRetry (List.replicate 5 (getManifest (Except.error ()) none)) =
      Except.error () ∧
    fetchManifestWithRetry (List.replicate 5 (getManifest (Except.ok (404, [])) none)) =
      Except.ok none := by
  exact ⟨rfl, rfl⟩

/-- C5.  The claim says the store holds at most one record per
(buildId, deviceIdentifier) after a completed cycle.  `api.py`'s link loop
(lines 70-127) has no `break` — the orphaned `for/else` at line 129 shows
one was intended — so a cycle over a single candidate whose source lists two
working mirror links inserts two `firmwares` rows with the same
(buildid, devices) pair into an initially empty store. -/
theorem c5_duplicate_records_after_cycle :
    ((scrapeData allOkEnv ⟨emptyDB, emptyCatalog⟩ ⟨[twoLinkCand], []⟩).db.firmwares.countP
      (fun r => r.buildid == "20A5283p" && r.devices == "iPhone14,5")) = 2 := by
  rfl

/-- C2.  Signing-response classification in `check_firmware`
(`scraper.py` lines 256-266): once an identity has been extracted, a
received response body sets the firmware's `signed` flag to exactly the
`MESSAGE=SUCCESS` containment test (and that containment is precisely what
the spec calls `Signed`); a transport failure is the spec's `Unknown`, it
makes the check raise, and the device's gather-then-write pipeline then
performs no store write at all — in particular an `Unknown` outcome is never
recorded as an `Unsigned` record. -/
theorem c2_signing_classification (bc : String) (firm : Firmware)
    (ids : List BuildIdentity) (h : (findIdentity ids bc).isSome = true) :
    (∀ body : String,
        checkFirmware bc firm (some ids) (some body) =
          Except.ok (some (setSigned firm (containsSub tokenChars body.toList))) ∧
        (classifyResponse (some body) = SigningStatus.signed ↔
          containsSub tokenChars body.toList = true)) ∧
    classifyResponse none = SigningStatus.unknown ∧
    checkFirmware bc firm (some ids) none = Except.error () ∧
    ∀ (store : ScraperStore) (ident : String),
      runDeviceChecks store ident bc [firm] (fun _ => some ids) (fun _ => none) =
        Except.error () := by
  obtain ⟨i, hi⟩ := Option.isSome_iff_exists.mp h
  refine ⟨?_, rfl, ?_, ?_⟩
  · intro body
    constructor
    · simp [checkFirmware, hi]
    · simp only [classifyResponse]
      by_cases hb : containsSub tokenChars body.toList <;> simp [hb]
  · simp [checkFirmware, hi]
  · intro store ident
    simp [runDeviceChecks, mapExcept, checkFirmware, hi]

/-- Witness for C2 at a concrete board config, firmware, manifest and a
failed (transport-error) authority response. -/
theorem c2_signing_classification_witness :
    (findIdentity [idErase] "n104ap").isSome = true ∧
    runDeviceChecks [] "iPhone11,8" "n104ap"
        [firmOfRow ⟨"13.1", "17A5492t", "https://e/4.ipsw", 9, "iPhone11,8"⟩]
        (fun _ => some [idErase]) (fun _ => none) =
      Except.error () :=
  ⟨by decide,
    (c2_signing_classification "n104ap"
      (firmOfRow ⟨"13.1", "17A5492t", "https://e/4.ipsw", 9, "iPhone11,8"⟩)
      [idErase] (by decide)).2.2.2 [] "iPhone11,8"⟩

/-- C6.  Running `scrape_data` a second time against the same catalog (and
the same network environment) leaves the database exactly as the first run
left it: the `self._data` memo makes the second run's candidate and device
filters empty, so no store operation executes. -/
theorem c6_cycle_idempotent (env : ScrapeEnv) (st : AppleDBState) (catalog : Catalog) :
    (scrapeData env (scrapeData env st catalog) catalog).db =
      (scrapeData env st catalog).db := by
  simp [scrapeData, filter_not_mem_self, sortCandidatesDesc, List.insertionSort]

/-- C7.  Every successful response of the `api.py` lookup endpoint is
sorted by buildid in descending lexicographic order, and on a store holding
buildids `19A5281j`, `20A5283p`, `19A5339a` for one device the returned
order is `20A5283p`, `19A5339a`, `19A5281j`. -/
theorem c7_query_sorted_descending :
    (∀ (db : DB) (env : TssRequest → Option String) (identifier : String)
        (l : List Firmware),
        getBetaFirmwares db env identifier = Except.ok l → l.Pairwise firmDescRel) ∧
    (getBetaFirmwares exDB exTssEnv "iPhone14,5" = Except.ok exOut ∧
      exOut.map Firmware.buildid = ["20A5283p", "19A5339a", "19A5281j"]) := by
  constructor
  · intro db env identifier l hl
    unfold getBetaFirmwares at hl
    cases hm : mapExcept (isFirmwareSigned db env identifier)
        ((matchedFirmRows db identifier).map firmOfRow) with
    | error e => rw [hm] at hl; cases hl
    | ok rs =>
      rw [hm] at hl
      injection hl with hl1
      subst hl1
      haveI : IsTotal Firmware firmDescRel := ⟨fun a b => lexLe_total _ _⟩
      haveI : IsTrans Firmware firmDescRel :=
        ⟨fun _ _ _ hab hbc => lexLe_trans _ _ _ hbc hab⟩
      exact List.sorted_insertionSort firmDescRel _
  · exact ⟨rfl, rfl⟩

/-- Witness for C7: the sortedness statement applied at the concrete store
and environment of the ordering example. -/
theorem c7_query_sorted_descending_witness :
    getBetaFirmwares exDB exTssEnv "iPhone14,5" = Except.ok exOut ∧
    exOut.Pairwise firmDescRel :=
  ⟨rfl, c7_query_sorted_descending.1 exDB exTssEnv "iPhone14,5" exOut rfl⟩

/-- C8.  In every state reachable from an initial state — however many
concurrent tasks are scheduled — the free semaphore units and the in-flight
network calls add up to the capacity 100, so at most 100 calls are ever
simultaneously outstanding.  The `release` transition covers both the
successful and the exceptional completion of a call (`async with`
releases on every exit path), so units are always returned. -/
theorem c8_limiter_bound (calls : List Nat) (s : LimState)
    (h : Relation.ReflTransGen LimStep (initLimState calls) s) :
    s.free + countInCall s.tasks = 100 ∧ countInCall s.tasks ≤ 100 := by
  have key : s.free + countInCall s.tasks = 100 := by
    induction h with
    | refl =>
      rw [countInCall_init]
      simp [initLimState]
    | tail _ hstep ih => exact limStep_preserves hstep ih
  exact ⟨key, by omega⟩

/-- Witness for C8 at the trivially reachable initial state of a single
one-call task. -/
theorem c8_limiter_bound_witness :
    (initLimState [1]).free + countInCall (initLimState [1]).tasks = 100 ∧
    countInCall (initLimState [1]).tasks ≤ 100 :=
  c8_limiter_bound [1] (initLimState [1]) Relation.ReflTransGen.refl

/-- C9 counterexample.  The claim says an identifier with no stored records
receives HTTP 404, but the `api.py` endpoint `get_beta_firmwares` has no
not-found branch: on an empty database it answers `iPhone1,1` with the
empty list (a 200 response), not with a 404 error. -/
theorem c9_api_lookup_no_404 :
    apiGetBetaFirmwares emptyDB (fun _ => none) "iPhone1,1" = Except.ok [] ∧
    apiGetBetaFirmwares emptyDB (fun _ => none) "iPhone1,1" ≠ Except.error 404 :=
  ⟨rfl, fun hcontra =>
    Except.noConfusion
      ((rfl : apiGetBetaFirmwares emptyDB (fun _ => none) "iPhone1,1" =
        Except.ok []).symm.trans hcontra)⟩

/-- C9 (amended).  The `scraper.py` lookup endpoint behaves as the claim
says: an identifier without a stored row receives HTTP 404, and a stored
row — which `output_device_data` always writes sorted by buildid
descending — is returned as is, hence in descending order.  The `api.py`
lookup endpoint, however, never produces a 404: an identifier with no
matching records receives the empty list. -/
theorem c9_lookup_amended (store : ScraperStore) (identifier : String)
    (hsorted : ∀ r ∈ store, (r.2).Pairwise firmDescRel) :
    (store.find? (fun r => r.1 == caseFold identifier) = none →
      getFirmwares store identifier = Except.error 404) ∧
    (∀ l, getFirmwares store identifier = Except.ok l → l.Pairwise firmDescRel) ∧
    ∀ (db : DB) (env : TssRequest → Option String) (ident : String),
      apiGetBetaFirmwares db env ident ≠ Except.error 404 := by
  refine ⟨?_, ?_, ?_⟩
  · intro hnone
    simp [getFirmwares, hnone]
  · intro l hl
    unfold getFirmwares at hl
    cases hf : store.find? (fun r => r.1 == caseFold identifier) with
    | none => rw [hf] at hl; cases hl
    | some r =>
      rw [hf] at hl
      injection hl with hl1
      exact hl1 ▸ hsorted r (List.mem_of_find?_eq_some hf)
  · intro db env ident hcontra
    unfold apiGetBetaFirmwares at hcontra
    cases hg : getBetaFirmwares db env ident with
    | ok l => rw [hg] at hcontra; exact Except.noConfusion hcontra
    | error e =>
      rw [hg] at hcontra
      injection hcontra with hc
      exact absurd hc (by decide)

/-- Witness for C9 (amended) on a concrete one-row store and an identifier
without a row. -/
theorem c9_lookup_amended_witness :
    (∀ r ∈ exStore, (r.2).Pairwise firmDescRel) ∧
    getFirmwares exStore "iPad1,1" = Except.error 404 :=
  ⟨by simp [exStore], (c9_lookup_amended exStore "iPad1,1" (by simp [exStore])).1 rfl⟩

/-- C10.  The record lookup of `get_beta_firmwares` selects rows by
`devices LIKE '%identifier%'`, i.e. exactly the stored rows whose
comma-joined device list contains the identifier as a substring after ASCII
lowercasing (first conjunct).  Consequently a row listing only the device
`iPad4,12` is matched by a query for `iPad4,1` (second conjunct), and the
matching is ASCII case-insensitive (third conjunct). -/
theorem c10_like_substring_matching :
    (∀ (db : DB) (identifier : String) (r : FirmRow),
        r ∈ matchedFirmRows db identifier ↔
          r ∈ db.firmwares ∧
            ∃ pre post, r.devices.toList.map Char.toLower =
              pre ++ identifier.toList.map Char.toLower ++ post) ∧
    likeContains (joinDevices ["iPad4,12"]) "iPad4,1" = true ∧
    likeContains "iPad4,1" "IPAD4,1" = true := by
  refine ⟨?_, rfl, rfl⟩
  intro db identifier r
  simp only [matchedFirmRows, List.mem_filter, likeContains, containsSub_iff]
